import Mathlib

/-!
# Verification of the robus core (field-bus communication stack)

Shallow embedding of the robus protocol engine: the module registry and
its lifecycle (`Core.new`, `Core.create_module`, `Core.set_module_id`),
the dispatch logic of `Core.receive`, the source stamping of `Core.send`,
the transmit-lock discipline of the bus arbiter, and the single-slot
message queue of `collections/msg_channel.rs`.

Rust `static mut` globals (`REGISTRY`, `TX_LOCK`, `MSG`) are modelled by
explicit state passing; `panic!` is modelled by `Except.error`.
-/

namespace Robus

/-- Modelled from the spec: `msg.rs` is not under `src/`.  The addressing
scheme tag of a message: `Broadcast | ById | ByType | ByGroup` (the code's
`match` in `Core::receive` names `Broadcast` and `Id` and handles the rest
with a wildcard arm). -/
inductive TargetMode
  | Broadcast
  | Id
  | ByType
  | ByGroup
deriving DecidableEq, Repr

/-- Modelled from the spec: `module.rs` is not under `src/`.  The module
category; `Sniffer` is the reserved promiscuous-monitoring category, the
other constructors stand for the ordinary sensor/actuator kinds (the
example application uses `Ledstrip`). -/
inductive ModuleType
  | Sniffer
  | Ledstrip
  | Button
deriving DecidableEq, Repr

/-- Modelled from the spec: `msg.rs` is not under `src/`.  The message
header: target mode, 16-bit target, 16-bit source, and command code
(commands are passed through opaquely, so a bare numeric code). -/
structure Header where
  target_mode : TargetMode
  target : Nat
  source : Nat
  command : Nat
deriving DecidableEq, Repr

/-- Modelled from the spec: `msg.rs` is not under `src/`.  A wire message:
header plus payload bytes (the code calls the payload field `data`). -/
structure Message where
  header : Header
  data : List Nat
deriving DecidableEq, Repr

/-- Modelled from the spec: `module.rs` is not under `src/`.  A registered
module: alias, type, bus id and reception callback.  The callback is an
opaque value of a caller-chosen type `α` (the Rust code stores an opaque
`&Fn(Message)`); the dispatch theorems record which callbacks are invoked
with which message. -/
structure Module (α : Type) where
  «alias» : String
  mod_type : ModuleType
  id : Nat
  callback : α
deriving DecidableEq, Repr

/-- Modelled from the spec: the bus id is "unset (sentinel) until assigned
by `set_module_id`". -/
def unset_id : Nat := 0

/-- Modelled from the spec: `Module::new` (in the missing `module.rs`)
builds a module with the unset sentinel id. -/
def Module.new (a : String) (mod_type : ModuleType) (cb : α) : Module α :=
  { «alias» := a, mod_type := mod_type, id := unset_id, callback := cb }

/-- The state of the process-wide `static mut REGISTRY: Option<Vec<Module>>`. -/
abbrev Registry (α : Type) := Option (List (Module α))

/-- The function `get_registry` (robus_core.rs): returns the registry, or panics with
"Core Module Registry not initialized!" when `REGISTRY` is `None`. -/
def get_registry (s : Registry α) : Except String (List (Module α)) :=
  match s with
  | some reg => Except.ok reg
  | none => Except.error "Core Module Registry not initialized!"

/-- The constructor `Core::new` (robus_core.rs): unconditionally overwrites the global
registry with `Some(Vec::new())`.  The source contains no singleton check
and no panic path (its own TODO comment admits it should panic on a second
construction but does not). -/
def Core.new (_s : Registry α) : Registry α := some []

/-- The method `Core::create_module` (robus_core.rs): pushes a fresh module onto the
registry obtained from `get_registry` (propagating its panic) and returns
the new length minus one. -/
def Core.create_module (s : Registry α) (a : String) (mod_type : ModuleType)
    (cb : α) : Except String (Registry α × Nat) :=
  match get_registry s with
  | Except.error e => Except.error e
  | Except.ok reg =>
    let reg2 := reg ++ [Module.new a mod_type cb]
    Except.ok (some reg2, reg2.length - 1)

/-- The method `Core::set_module_id` (robus_core.rs): `reg[mod_id].id = robus_id`.
Indexing a `Vec` out of range panics, modelled by `Except.error`. -/
def Core.set_module_id (s : Registry α) (mod_id : Nat) (robus_id : Nat) :
    Except String (Registry α) :=
  match get_registry s with
  | Except.error e => Except.error e
  | Except.ok reg =>
    match reg.get? mod_id with
    | none => Except.error "index out of bounds"
    | some module => Except.ok (some (reg.set mod_id { module with id := robus_id }))

/-- The `match msg.header.target_mode` selection inside `Core::receive`
(robus_core.rs lines 94-102): `Broadcast` keeps every module
(`filter(|_| true)`), `Id` keeps modules whose id equals the target or
whose type is `Sniffer`, and every other mode yields the empty vector. -/
def dispatch_matches (reg : List (Module α)) (msg : Message) : List (Module α) :=
  match msg.header.target_mode with
  | TargetMode.Broadcast => reg.filter (fun _ => true)
  | TargetMode.Id =>
    reg.filter (fun module =>
      module.id == msg.header.target || module.mod_type == ModuleType.Sniffer)
  | _ => []

/-- The callback-invocation loop of `Core::receive` on a completed message
(robus_core.rs lines 104-107): each matched module's callback is invoked,
in order, with `msg.clone()`.  The result lists the invocations as
(module, argument) pairs; the return type has no error channel, exactly as
`Core::receive` returns `()` and surfaces no error. -/
def receive_calls (reg : List (Module α)) (msg : Message) :
    List (Module α × Message) :=
  (dispatch_matches reg msg).map (fun module => (module, msg))

/-- The method `Core::send` (robus_core.rs): looks the sending module up by local
index (`Vec` indexing panics when out of range, modelled by `Except.error`)
and overwrites `msg.header.source` with that module's bus id before the
message is handed to transmission.  The returned message is the one
transmitted. -/
def Core.send (s : Registry α) (mod_id : Nat) (msg : Message) :
    Except String Message :=
  match get_registry s with
  | Except.error e => Except.error e
  | Except.ok reg =>
    match reg.get? mod_id with
    | none => Except.error "index out of bounds"
    | some module =>
      Except.ok { msg with header := { msg.header with source := module.id } }

/-- The shared state the bus arbiter discipline is about: the process-wide
`static mut TX_LOCK: bool` (robus_core.rs) and the reception buffer held by
`recv_buf`. -/
structure BusState where
  tx_lock : Bool
  recv_buf : List Nat
deriving DecidableEq, Repr

/-- The three entry points that touch `TX_LOCK`: `Core::receive(byte)`,
the start of `Core::send` (after its busy-wait on `TX_LOCK`), and the
idle-timer interrupt handler `timeout` (physical.rs). -/
inductive BusEvent
  | recv_byte (b : Nat)
  | send_start
  | timeout
deriving DecidableEq, Repr

/-- One step of the arbiter, translated from the source:

* `Core::receive` (robus_core.rs lines 83-89) sets `TX_LOCK = true` and
  pushes the byte onto the reception buffer;
* `Core::send` (robus_core.rs lines 120-127) busy-waits
  `while read_volatile(TX_LOCK) {}` — so the step is only enabled when
  the lock is free — and then sets `TX_LOCK = true`;
* `timeout` (physical.rs lines 287-300) sets `TX_LOCK = false` and
  flushes the reception buffer (`recv_buf::flush()`). -/
inductive BusStep : BusState → BusEvent → BusState → Prop
  | recv (s : BusState) (b : Nat) :
      BusStep s (BusEvent.recv_byte b) ⟨true, s.recv_buf ++ [b]⟩
  | send (s : BusState) (h : s.tx_lock = false) :
      BusStep s BusEvent.send_start ⟨true, s.recv_buf⟩
  | fire (s : BusState) :
      BusStep s BusEvent.timeout ⟨false, []⟩

/-- The `static mut MSG: Option<Message>` slot of
`collections/msg_channel.rs`. -/
abbrev MsgSlot := Option Message

/-- The struct `Tx` (msg_channel.rs): a fieldless handle; `send` ignores it and
writes the process-wide slot. -/
structure Tx where

/-- The struct `Rx` (msg_channel.rs): a fieldless handle; `recv` ignores it and
reads the process-wide slot. -/
structure Rx where

/-- The function `message_queue` (msg_channel.rs): returns a fresh pair of fieldless
handles; every pair operates on the same static slot. -/
def message_queue : Tx × Rx := (Tx.mk, Rx.mk)

/-- The method `Tx::send` (msg_channel.rs): `MSG = Some(msg)`, overwriting whatever
was in the slot. -/
def Tx.send (_tx : Tx) (_s : MsgSlot) (msg : Message) : MsgSlot := some msg

/-- The method `Rx::recv` (msg_channel.rs): clones the slot content if any, then
empties the slot when it was full; returns (result, new slot state). -/
def Rx.recv (_rx : Rx) (s : MsgSlot) : Option Message × MsgSlot :=
  match s with
  | some msg => (some msg, none)
  | none => (none, none)

/-- A client interaction with the message queue: a `Tx::send` of a given
message or an `Rx::recv`. -/
inductive QueueEvent
  | push (m : Message)
  | pull
deriving DecidableEq, Repr

/-- Runs a sequence of queue interactions from a slot state, returning the
final slot and the list of `Rx::recv` results in order. -/
def run_queue (tx : Tx) (rx : Rx) : MsgSlot → List QueueEvent → MsgSlot × List (Option Message)
  | s, [] => (s, [])
  | s, QueueEvent.push m :: evts => run_queue tx rx (Tx.send tx s m) evts
  | s, QueueEvent.pull :: evts =>
    let r := Rx.recv rx s
    let rest := run_queue tx rx r.2 evts
    (rest.1, r.1 :: rest.2)

/-- Concrete message used by witnesses: an `Id`-addressed message whose
target matches `modA`. -/
def msgA : Message :=
  { header := { target_mode := TargetMode.Id, target := 1, source := 2, command := 3 },
    data := [4, 5] }

/-- Concrete broadcast message used by witnesses. -/
def msgB : Message :=
  { header := { target_mode := TargetMode.Broadcast, target := 0, source := 0, command := 7 },
    data := [8] }

/-- Concrete `ByType`-addressed message used by witnesses. -/
def msgC : Message :=
  { header := { target_mode := TargetMode.ByType, target := 9, source := 9, command := 9 },
    data := [] }

/-- Concrete module with bus id 1 used by witnesses. -/
def modA : Module Nat :=
  { «alias» := "m1", mod_type := ModuleType.Ledstrip, id := 1, callback := 0 }

/-- Concrete module with bus id 6 used by witnesses. -/
def modB : Module Nat :=
  { «alias» := "m2", mod_type := ModuleType.Button, id := 6, callback := 1 }

/-- Concrete sniffer module used by witnesses. -/
def modSniff : Module Nat :=
  { «alias» := "sniff", mod_type := ModuleType.Sniffer, id := 7, callback := 2 }

/-- C1: for every registered module with handle `h` and assigned bus id `i`
and every message `msg`, `Core::send h msg` overwrites the outgoing
message's header `source` field with `i` — regardless of the source value
the caller had set — and leaves every other part of the message unchanged;
the stamped message is the one handed to transmission. -/
theorem send_stamps_source {α : Type} (reg : List (Module α)) (h i : Nat)
    (msg : Message) (m : Module α) (hm : reg.get? h = some m) (hid : m.id = i) :
    Core.send (some reg) h msg =
      Except.ok { msg with header := { msg.header with source := i } } := by
  subst hid
  rw [List.get?_eq_getElem?] at hm
  simp [Core.send, get_registry, hm]

/-- Witness for C1 at a concrete registry, handle and message. -/
theorem send_stamps_source_witness :
    ([modA, modB].get? 1 = some modB ∧ modB.id = 6) ∧
      Core.send (some [modA, modB]) 1 msgA =
        Except.ok { msgA with header := { msgA.header with source := 6 } } :=
  ⟨⟨rfl, rfl⟩, send_stamps_source [modA, modB] 1 6 msgA modB rfl rfl⟩

/-- C2: on a completed message whose target mode is `Id`, `Core::receive`
dispatches exactly to the modules whose id equals the message's target
plus every module of type `Sniffer`, and to no other module. -/
theorem id_dispatch {α : Type} (reg : List (Module α)) (msg : Message)
    (hmode : msg.header.target_mode = TargetMode.Id) (m : Module α) :
    (m, msg) ∈ receive_calls reg msg ↔
      m ∈ reg ∧ (m.id = msg.header.target ∨ m.mod_type = ModuleType.Sniffer) := by
  simp [receive_calls, dispatch_matches, hmode, List.mem_filter]

/-- Witness for C2 at a concrete registry and message. -/
theorem id_dispatch_witness :
    msgA.header.target_mode = TargetMode.Id ∧
      ((modA, msgA) ∈ receive_calls [modA, modB, modSniff] msgA ↔
        modA ∈ [modA, modB, modSniff] ∧
          (modA.id = msgA.header.target ∨ modA.mod_type = ModuleType.Sniffer)) :=
  ⟨rfl, id_dispatch [modA, modB, modSniff] msgA rfl modA⟩

/-- C3: on a completed broadcast message, `Core::receive` invokes the
callback of every registered module exactly once, in registration order
(the invocation list is exactly the registry paired with the message), and
every invocation receives a copy of the message with command and payload
unchanged. -/
theorem broadcast_dispatch {α : Type} (reg : List (Module α)) (msg : Message)
    (hmode : msg.header.target_mode = TargetMode.Broadcast) :
    receive_calls reg msg = reg.map (fun module => (module, msg)) ∧
      ∀ c ∈ receive_calls reg msg,
        c.2.header.command = msg.header.command ∧ c.2.data = msg.data := by
  constructor
  · simp [receive_calls, dispatch_matches, hmode]
  · intro c hc
    simp [receive_calls, List.mem_map] at hc
    obtain ⟨a, _, rfl⟩ := hc
    exact ⟨rfl, rfl⟩

/-- Witness for C3 at a concrete registry and broadcast message. -/
theorem broadcast_dispatch_witness :
    msgB.header.target_mode = TargetMode.Broadcast ∧
      (receive_calls [modA, modB] msgB =
          [modA, modB].map (fun module => (module, msgB)) ∧
        ∀ c ∈ receive_calls [modA, modB] msgB,
          c.2.header.command = msgB.header.command ∧ c.2.data = msgB.data) :=
  ⟨rfl, broadcast_dispatch [modA, modB] msgB rfl⟩

/-- C4: on a completed message whose target mode is `ByType` or `ByGroup`,
`Core::receive` invokes no module callback at all; the invocation list is
empty and its type carries no error channel, so the zero dispatch is not
surfaced as an error. -/
theorem type_group_zero_dispatch {α : Type} (reg : List (Module α)) (msg : Message)
    (hmode : msg.header.target_mode = TargetMode.ByType ∨
      msg.header.target_mode = TargetMode.ByGroup) :
    receive_calls reg msg = [] := by
  rcases hmode with h | h <;> simp [receive_calls, dispatch_matches, h]

/-- Witness for C4 at a concrete registry and `ByType` message. -/
theorem type_group_zero_dispatch_witness :
    msgC.header.target_mode = TargetMode.ByType ∧
      receive_calls [modA, modB, modSniff] msgC = [] :=
  ⟨rfl, type_group_zero_dispatch [modA, modB, modSniff] msgC (Or.inl rfl)⟩

/-- C6: calling `Core::create_module` before any Core has been constructed
(registry state `none`) hits the `get_registry` panic — modelled as
`Except.error` with the source's panic message — rather than returning a
result; on an initialized registry it appends the new module and returns
its local index, which is the number of modules registered before it. -/
theorem create_module_lifecycle {α : Type} (a : String) (t : ModuleType)
    (cb : α) (reg : List (Module α)) :
    Core.create_module (α := α) none a t cb =
        Except.error "Core Module Registry not initialized!" ∧
      Core.create_module (some reg) a t cb =
        Except.ok (some (reg ++ [Module.new a t cb]), reg.length) := by
  refine ⟨rfl, ?_⟩
  simp [Core.create_module, get_registry]

/-- C8 (failing input): constructing a second Core does not abort.
`Core::new` unconditionally resets the registry to `Some(vec![])`: the
second construction after a module has been registered succeeds silently,
wipes the registry, and a subsequent `create_module` also succeeds. -/
theorem second_core_construction_is_silent :
    Core.new (α := Nat) (Core.new (α := Nat) none) = some [] ∧
      Core.new (α := Nat) (some [Module.new "m1" ModuleType.Ledstrip 0]) = some [] ∧
      Core.create_module
          (Core.new (α := Nat) (some [Module.new "m1" ModuleType.Ledstrip 0]))
          "m2" ModuleType.Button 1 =
        Except.ok (some [Module.new "m2" ModuleType.Button 1], 0) :=
  ⟨rfl, rfl, rfl⟩

/-- C9: for the single-slot message queue, `Rx::recv` on the empty slot
returns `None`; after a `Tx::send m` the next `Rx::recv` returns `Some m`
and empties the slot, so an immediately following `recv` returns `None`. -/
theorem msg_queue_single_slot (tx : Tx) (rx : Rx) (s : MsgSlot) (m : Message) :
    Rx.recv rx none = (none, none) ∧
      Rx.recv rx (Tx.send tx s m) = (some m, none) ∧
      Rx.recv rx (Rx.recv rx (Tx.send tx s m)).2 = (none, none) :=
  ⟨rfl, rfl, rfl⟩

/-- C5: in every arbiter step, `TX_LOCK` is set on every byte reception
and at the (post-busy-wait) start of every send; a state with the lock
clear can only have been produced by the idle-timer timeout, which also
flushes the reception buffer; and the send step is enabled only when the
lock was free (the busy-wait `while read_volatile(TX_LOCK) {}`). -/
theorem tx_lock_discipline (s : BusState) (e : BusEvent) (s2 : BusState)
    (hstep : BusStep s e s2) :
    ((∃ b, e = BusEvent.recv_byte b) → s2.tx_lock = true) ∧
      (e = BusEvent.send_start → s.tx_lock = false ∧ s2.tx_lock = true) ∧
      (s2.tx_lock = false → e = BusEvent.timeout) ∧
      (e = BusEvent.timeout → s2.tx_lock = false ∧ s2.recv_buf = []) := by
  cases hstep <;> simp_all

/-- Witness for C5 at a concrete send step from an unlocked state. -/
theorem tx_lock_discipline_witness :
    BusStep ⟨false, [3]⟩ BusEvent.send_start ⟨true, [3]⟩ ∧
      (((∃ b, BusEvent.send_start = BusEvent.recv_byte b) →
          (⟨true, [3]⟩ : BusState).tx_lock = true) ∧
        (BusEvent.send_start = BusEvent.send_start →
          (⟨false, [3]⟩ : BusState).tx_lock = false ∧
            (⟨true, [3]⟩ : BusState).tx_lock = true) ∧
        ((⟨true, [3]⟩ : BusState).tx_lock = false →
          BusEvent.send_start = BusEvent.timeout) ∧
        (BusEvent.send_start = BusEvent.timeout →
          (⟨true, [3]⟩ : BusState).tx_lock = false ∧
            (⟨true, [3]⟩ : BusState).recv_buf = [])) :=
  ⟨BusStep.send ⟨false, [3]⟩ rfl,
    tx_lock_discipline ⟨false, [3]⟩ BusEvent.send_start ⟨true, [3]⟩
      (BusStep.send ⟨false, [3]⟩ rfl)⟩

/-- C7: for a valid handle `h` and any id `i` — no uniqueness check
against other modules' ids is performed, `i` is unconstrained —
`Core::set_module_id` overwrites the bus id of the module at index `h`
and changes nothing else: that module's alias, type and callback are
unchanged, every other registry entry is unchanged, and the registry
length is unchanged. -/
theorem set_module_id_frame {α : Type} (reg : List (Module α)) (h i : Nat)
    (m : Module α) (hm : reg.get? h = some m) :
    ∃ m2 : Module α,
      Core.set_module_id (some reg) h i = Except.ok (some (reg.set h m2)) ∧
        m2.id = i ∧
        m2.«alias» = m.«alias» ∧
        m2.mod_type = m.mod_type ∧
        m2.callback = m.callback ∧
        (reg.set h m2).get? h = some m2 ∧
        (∀ j, j ≠ h → (reg.set h m2).get? j = reg.get? j) ∧
        (reg.set h m2).length = reg.length := by
  have hlen : h < reg.length := by
    by_contra hcon
    rw [List.get?_eq_none.mpr (Nat.le_of_not_lt hcon)] at hm
    cases hm
  refine ⟨{ m with id := i }, ?_, rfl, rfl, rfl, rfl, ?_, ?_, ?_⟩
  · have hm2 := hm
    rw [List.get?_eq_getElem?] at hm2
    simp [Core.set_module_id, get_registry, hm2]
  · rw [List.get?_eq_getElem?]
    exact List.getElem?_set_eq_of_lt _ hlen
  · intro j hj
    rw [List.get?_eq_getElem?, List.get?_eq_getElem?]
    exact List.getElem?_set_ne (fun he => hj he.symm)
  · exact List.length_set reg h _

/-- Witness for C7 at a concrete registry, handle and id. -/
theorem set_module_id_frame_witness :
    [modA, modB].get? 0 = some modA ∧
      ∃ m2 : Module Nat,
        Core.set_module_id (some [modA, modB]) 0 99 =
            Except.ok (some ([modA, modB].set 0 m2)) ∧
          m2.id = 99 ∧
          m2.«alias» = modA.«alias» ∧
          m2.mod_type = modA.mod_type ∧
          m2.callback = modA.callback ∧
          ([modA, modB].set 0 m2).get? 0 = some m2 ∧
          (∀ j, j ≠ 0 → ([modA, modB].set 0 m2).get? j = [modA, modB].get? j) ∧
          ([modA, modB].set 0 m2).length = [modA, modB].length :=
  ⟨rfl, set_module_id_frame [modA, modB] 0 99 modA rfl⟩

/-- Helper for C10: once the slot no longer holds `m1` and no later
interaction sends `m1`, no later `Rx::recv` ever returns `m1` — the
overwritten message is lost for good. -/
theorem run_queue_never_delivers (tx : Tx) (rx : Rx) (m1 : Message) :
    ∀ (evts : List QueueEvent) (s : MsgSlot), s ≠ some m1 →
      (∀ m, QueueEvent.push m ∈ evts → m ≠ m1) →
      some m1 ∉ (run_queue tx rx s evts).2 := by
  intro evts
  induction evts with
  | nil => intro s _ _; simp [run_queue]
  | cons e evts ih =>
    intro s hs hp
    cases e with
    | push m =>
      simp [run_queue]
      exact ih (Tx.send tx s m) (by simp [Tx.send]; exact hp m (by simp))
        (fun m2 hm2 => hp m2 (List.mem_cons_of_mem _ hm2))
    | pull =>
      simp [run_queue]
      constructor
      · cases s with
        | none => simp [Rx.recv]
        | some msg =>
          simp [Rx.recv]
          intro he
          exact hs (by rw [he])
      · exact ih (Rx.recv rx s).2
          (by cases s <;> simp [Rx.recv])
          (fun m2 hm2 => hp m2 (List.mem_cons_of_mem _ hm2))

/-- C10: every `(Tx, Rx)` pair aliases the one process-wide slot — `Tx`
and `Rx` are fieldless, so every handle equals the one `message_queue`
returns, and a message sent through any `Tx` is returned by any `Rx` —
and a second send before a recv overwrites the first message, which is
then never delivered by any later sequence of interactions that does not
re-send it. -/
theorem msg_queue_aliasing (tx1 tx2 tx : Tx) (rx rx2 : Rx) (s : MsgSlot)
    (m1 m2 : Message) (evts : List QueueEvent)
    (hne : m1 ≠ m2) (hpush : ∀ m, QueueEvent.push m ∈ evts → m ≠ m1) :
    (∀ t : Tx, t = message_queue.1) ∧
      (∀ r : Rx, r = message_queue.2) ∧
      Rx.recv rx2 (Tx.send tx1 s m1) = (some m1, none) ∧
      Tx.send tx2 (Tx.send tx1 s m1) m2 = some m2 ∧
      some m1 ∉ (run_queue tx rx (Tx.send tx2 (Tx.send tx1 s m1) m2) evts).2 := by
  refine ⟨fun t => rfl, fun r => rfl, rfl, rfl, ?_⟩
  apply run_queue_never_delivers tx rx m1 evts
  · simp [Tx.send]
    exact fun he => hne he.symm
  · exact hpush

/-- Witness for C10 at concrete messages and a concrete later run. -/
theorem msg_queue_aliasing_witness :
    (msgA ≠ msgB) ∧
      ((∀ t : Tx, t = message_queue.1) ∧
        (∀ r : Rx, r = message_queue.2) ∧
        Rx.recv Rx.mk (Tx.send Tx.mk none msgA) = (some msgA, none) ∧
        Tx.send Tx.mk (Tx.send Tx.mk none msgA) msgB = some msgB ∧
        some msgA ∉
          (run_queue Tx.mk Rx.mk (Tx.send Tx.mk (Tx.send Tx.mk none msgA) msgB)
            [QueueEvent.pull, QueueEvent.push msgC, QueueEvent.pull]).2) :=
  ⟨by decide,
    msg_queue_aliasing Tx.mk Tx.mk Tx.mk Rx.mk Rx.mk none msgA msgB
      [QueueEvent.pull, QueueEvent.push msgC, QueueEvent.pull]
      (by decide)
      (by
        intro m hm
        simp at hm
        subst hm
        decide)⟩

end Robus
